import Mathlib

/-!
Shallow embedding of the SSO token issuance and validation subsystem of the
ycode management console.

Embedded source files:
- src/lib/supabase-management.ts (second segment, the SSO token library):
  generateSSOToken, validateSSOToken, isTokenExpired, getTokenExpiration.
- src/unnamed/part_004 (POST /api/sso/validate): token redemption route.
- src/app/api/sso/generate/route.ts (POST /api/sso/generate): token mint route.

Modelling conventions:
- JWTs are opaque values of an inductive type: a well-formed token signed with
  some secret, a well-formed unsigned token, or an undecodable string.
- The jsonwebtoken library calls (jwt.sign, jwt.verify, jwt.decode) are embedded
  with the check order of that library: decode, then signature, then exp, then
  audience, then issuer. TokenExpiredError and JsonWebTokenError are the two
  error tags.
- Timestamps are Nat seconds for sign/verify (jsonwebtoken compares in
  seconds); isTokenExpired and getTokenExpiration work in milliseconds, as the
  source compares Date.now() against exp * 1000.
- process.env is a record of Option String fields. A thrown exception inside a
  route handler is caught by the surrounding try/catch and becomes the generic
  500 response, exactly as in the source.
- Supabase .single() returns a row only when the filter matches exactly one
  row; this is modelled by singleRow.
- A missing or empty (falsy) request field is modelled as Option.none where the
  source only branches on falsiness.
-/

namespace SSO

/-- Tenant status column: src/lib/supabase-management.ts, interface Tenant. -/
inductive TenantStatus where
  | active
  | suspended
  | cancelled
  deriving DecidableEq

/-- Tenant plan column: src/lib/supabase-management.ts, interface Tenant. -/
inductive TenantPlan where
  | free
  | pro
  | enterprise
  deriving DecidableEq

/-- Grant role column: src/lib/supabase-management.ts, interface TenantUser. -/
inductive Role where
  | owner
  | admin
  | editor
  deriving DecidableEq

/-- The columns of a tenants row that the SSO routes select (id, status, plan). -/
structure Tenant where
  id : String
  status : TenantStatus
  plan : TenantPlan
  deriving DecidableEq

/-- The columns of a tenant_users row that the SSO routes use. -/
structure TenantUser where
  tenant_id : String
  user_id : String
  role : Role
  deriving DecidableEq

/-- The management database state the SSO routes read at request time. -/
structure Store where
  tenants : List Tenant
  tenant_users : List TenantUser

/-- Supabase .single(): succeeds exactly when the filtered result set has one
row; zero or several rows produce an error, which the routes treat the same as
no row. -/
def singleRow {α : Type} (p : α → Bool) (l : List α) : Option α :=
  match l.filter p with
  | [x] => some x
  | _ => none

/-- The tenants query of the validate route:
from tenants select id, status, plan where id = tid, single. -/
def findTenant (s : Store) (tid : String) : Option Tenant :=
  singleRow (fun t => t.id == tid) s.tenants

/-- The tenant_users query of both routes:
from tenant_users select role where tenant_id = tid and user_id = uid, single. -/
def findGrant (s : Store) (tid uid : String) : Option TenantUser :=
  singleRow (fun g => g.tenant_id == tid && g.user_id == uid) s.tenant_users

/-- interface SSOTokenPayload of src/lib/supabase-management.ts: tenant_id,
user_id, email plus the optional registered claims iat and exp. -/
structure SSOTokenPayload where
  tenant_id : String
  user_id : String
  email : String
  iat : Option Nat
  exp : Option Nat
  deriving DecidableEq

/-- The full decoded JWT claim set: the payload fields above together with the
registered issuer and audience claims that jwt.sign writes and jwt.verify
checks. -/
structure JwtClaims where
  payload : SSOTokenPayload
  iss : Option String
  aud : Option String
  deriving DecidableEq

/-- A JWT wire value: a well-formed token signed with a given secret, a
well-formed token with no signature, or an undecodable string. -/
inductive JwtToken where
  | signed (claims : JwtClaims) (secret : String)
  | unsigned (claims : JwtClaims)
  | malformed (raw : String)
  deriving DecidableEq

/-- jwt.decode: reads the claim set without any verification; null on an
undecodable string. -/
def jwtDecode : JwtToken → Option JwtClaims
  | .signed c _ => some c
  | .unsigned c => some c
  | .malformed _ => none

/-- The two jsonwebtoken verification error classes the library code
distinguishes: TokenExpiredError and JsonWebTokenError. -/
inductive JwtError where
  | expired
  | invalid
  deriving DecidableEq

/-- The claim checks jwt.verify runs after signature and expiry: audience
first, then issuer (the order of verify.js in the jsonwebtoken library). -/
def checkAudIss (c : JwtClaims) (iss aud : String) : Except JwtError JwtClaims :=
  if c.aud ≠ some aud then .error .invalid
  else if c.iss ≠ some iss then .error .invalid
  else .ok c

/-- jwt.verify with issuer and audience options: decode, then signature, then
exp (clock in seconds, expired when now is at or past exp), then audience and
issuer. -/
def jwtVerify (tok : JwtToken) (secret iss aud : String) (now : Nat) :
    Except JwtError JwtClaims :=
  match tok with
  | .malformed _ => .error .invalid
  | .unsigned _ => .error .invalid
  | .signed c s =>
    if s ≠ secret then .error .invalid
    else
      match c.payload.exp with
      | some e => if e ≤ now then .error .expired else checkAudIss c iss aud
      | none => checkAudIss c iss aud

/-- The process environment fields the embedded code reads. -/
structure Env where
  ssoSecret : Option String
  serviceKey : Option String
  cloudDeploymentUrl : Option String

/-- issuer option of jwt.sign and jwt.verify in the library code. -/
def ssoIssuer : String := "ycode-cloud-management"

/-- audience option of jwt.sign and jwt.verify in the library code. -/
def ssoAudience : String := "ycode-cloud-deployment"

/-- expiresIn 15m, in seconds. -/
def ssoExpirySeconds : Nat := 900

/-- generateSSOToken: throws when SSO_SECRET is unset, otherwise signs the
payload with iat = now, exp = now + 15 minutes, and the fixed issuer and
audience. The thrown Error message is the Except.error value. -/
def generateSSOToken (env : Env) (tenant_id user_id email : String) (now : Nat) :
    Except String JwtToken :=
  match env.ssoSecret with
  | none => .error ("SSO_SECRET not configured")
  | some secret =>
    .ok (.signed
      { payload :=
          { tenant_id := tenant_id, user_id := user_id, email := email,
            iat := some now, exp := some (now + ssoExpirySeconds) }
        iss := some ssoIssuer
        aud := some ssoAudience } secret)

/-- validateSSOToken: throws when SSO_SECRET is unset; otherwise runs
jwt.verify with the fixed issuer and audience and returns the decoded payload,
or null on any verification error (the expired versus invalid distinction is
only logged, never returned). -/
def validateSSOToken (env : Env) (tok : JwtToken) (now : Nat) :
    Except String (Option SSOTokenPayload) :=
  match env.ssoSecret with
  | none => .error ("SSO_SECRET not configured")
  | some secret =>
    match jwtVerify tok secret ssoIssuer ssoAudience now with
    | .ok c => .ok (some c.payload)
    | .error _ => .ok none

/-- isTokenExpired: jwt.decode without verification; true when the token is
undecodable or its exp claim is absent or zero (both falsy in the source),
otherwise Date.now() at or past exp * 1000. Takes the clock in
milliseconds. -/
def isTokenExpired (tok : JwtToken) (nowMs : Nat) : Bool :=
  match jwtDecode tok with
  | none => true
  | some c =>
    match c.payload.exp with
    | none => true
    | some 0 => true
    | some e => decide (e * 1000 ≤ nowMs)

/-- getTokenExpiration: jwt.decode without verification; null when the token is
undecodable or its exp claim is absent or zero (falsy), otherwise the
millisecond timestamp exp * 1000 passed to new Date. -/
def getTokenExpiration (tok : JwtToken) : Option Nat :=
  match jwtDecode tok with
  | none => none
  | some c =>
    match c.payload.exp with
    | none => none
    | some 0 => none
    | some e => some (e * 1000)

/-- Rendering of the status column used in the 403 message of the validate
route. -/
def statusString : TenantStatus → String
  | .active => "active"
  | .suspended => "suspended"
  | .cancelled => "cancelled"

/-- A response of the validate route: either a JSON error body with an HTTP
status, or the success body with the enriched payload. -/
inductive ValidateResponse where
  | errorResp (status : Nat) (msg : String)
  | success (tenant_id user_id email : String) (role : Role) (plan : TenantPlan)
  deriving DecidableEq

/-- POST /api/sso/validate (src/unnamed/part_004): body token check, then
validateSSOToken (a thrown missing-secret error is caught by the route and
becomes the 500 response), then getManagementAdmin (throws when the service
role key is unset, caught the same way), then the tenants lookup and status
gate, then the tenant_users lookup, then the success body. -/
def validatePOST (env : Env) (store : Store) (tokenOpt : Option JwtToken)
    (now : Nat) : ValidateResponse :=
  match tokenOpt with
  | none => .errorResp 400 "Token required"
  | some tok =>
    match validateSSOToken env tok now with
    | .error _ => .errorResp 500 "Validation failed"
    | .ok none => .errorResp 401 "Invalid or expired token"
    | .ok (some payload) =>
      match env.serviceKey with
      | none => .errorResp 500 "Validation failed"
      | some _ =>
        match findTenant store payload.tenant_id with
        | none => .errorResp 404 "Tenant not found"
        | some tenant =>
          if tenant.status ≠ .active then
            .errorResp 403 ("Tenant is " ++ statusString tenant.status)
          else
            match findGrant store payload.tenant_id payload.user_id with
            | none => .errorResp 403 "User does not have access to this tenant"
            | some grant =>
              .success payload.tenant_id payload.user_id payload.email
                grant.role tenant.plan

/-- The primary-auth bearer token of the generate route after the ad hoc manual
decode: missing second segment, an undecodable payload segment (JSON.parse
throws, caught by the route as a 500), or a parsed payload with optional sub
and email claims. -/
inductive PrimaryToken where
  | noPayloadSegment
  | unparseable
  | parsed (sub : Option String) (email : Option String)
  deriving DecidableEq

/-- The access_url the generate route interpolates: a base URL followed by
?token= and the token. Tokens are opaque here, so the URL is kept as the
pair. -/
structure AccessURL where
  base : String
  token : JwtToken
  deriving DecidableEq

/-- A response of the generate route. -/
inductive GenerateResponse where
  | errorResp (status : Nat) (msg : String)
  | success (token : JwtToken) (access_url : AccessURL)
  deriving DecidableEq

/-- Default email claim substituted by the generate route when the primary-auth
payload carries no truthy email. -/
def fallbackEmail : String := "user@ycode.app"

/-- Default deployment URL of the generate route when CLOUD_DEPLOYMENT_URL is
unset. -/
def defaultDeploymentUrl : String := "http://localhost:3000"

/-- The JS short-circuit userEmail || fallback of the generate route: the
fallback replaces an absent or empty (falsy) email claim. -/
def emailOrFallback : Option String → String
  | none => fallbackEmail
  | some e => if e = "" then fallbackEmail else e

/-- POST /api/sso/generate (src/app/api/sso/generate/route.ts): authorization
header check, manual decode of its payload segment, sub (falsy) check,
tenant_id (falsy) check, getManagementAdmin (throws when the service role key
is unset, caught as 500), tenant_users grant lookup, then generateSSOToken
(throws when SSO_SECRET is unset, caught as 500) and the success body with the
token and access_url. -/
def generatePOST (env : Env) (store : Store) (authHeader : Option PrimaryToken)
    (tenant_id : Option String) (now : Nat) : GenerateResponse :=
  match authHeader with
  | none => .errorResp 401 "Unauthorized"
  | some .noPayloadSegment => .errorResp 401 "Invalid token format"
  | some .unparseable => .errorResp 500 "Failed to generate token"
  | some (.parsed sub email) =>
    match sub with
    | none => .errorResp 401 "Invalid token"
    | some userId =>
      if userId = "" then .errorResp 401 "Invalid token"
      else
        match tenant_id with
        | none => .errorResp 400 "tenant_id required"
        | some tid =>
          if tid = "" then .errorResp 400 "tenant_id required"
          else
            match env.serviceKey with
            | none => .errorResp 500 "Failed to generate token"
            | some _ =>
              match findGrant store tid userId with
              | none => .errorResp 403 "Access denied"
              | some _ =>
                match generateSSOToken env tid userId (emailOrFallback email) now with
                | .error _ => .errorResp 500 "Failed to generate token"
                | .ok tok =>
                  .success tok
                    { base := env.cloudDeploymentUrl.getD defaultDeploymentUrl,
                      token := tok }

/-! ### Branch characterization lemmas for the validate route -/

theorem validatePOST_verify_fail (env : Env) (store : Store) (tok : JwtToken)
    (now : Nat) (secret : String) (hsec : env.ssoSecret = some secret)
    (e : JwtError) (hv : jwtVerify tok secret ssoIssuer ssoAudience now = .error e) :
    validatePOST env store (some tok) now = .errorResp 401 "Invalid or expired token" := by
  simp [validatePOST, validateSSOToken, hsec, hv]

theorem validatePOST_ok_some (env : Env) (tok : JwtToken) (now : Nat)
    (secret : String) (hsec : env.ssoSecret = some secret) (c : JwtClaims)
    (hv : jwtVerify tok secret ssoIssuer ssoAudience now = .ok c) :
    validateSSOToken env tok now = .ok (some c.payload) := by
  simp [validateSSOToken, hsec, hv]

theorem validatePOST_no_tenant (env : Env) (store : Store) (tok : JwtToken)
    (now : Nat) (p : SSOTokenPayload)
    (hp : validateSSOToken env tok now = .ok (some p))
    (key : String) (hkey : env.serviceKey = some key)
    (ht : findTenant store p.tenant_id = none) :
    validatePOST env store (some tok) now = .errorResp 404 "Tenant not found" := by
  simp [validatePOST, hp, hkey, ht]

theorem validatePOST_inactive (env : Env) (store : Store) (tok : JwtToken)
    (now : Nat) (p : SSOTokenPayload)
    (hp : validateSSOToken env tok now = .ok (some p))
    (key : String) (hkey : env.serviceKey = some key)
    (tenant : Tenant) (ht : findTenant store p.tenant_id = some tenant)
    (hs : tenant.status ≠ .active) :
    validatePOST env store (some tok) now =
      .errorResp 403 ("Tenant is " ++ statusString tenant.status) := by
  simp [validatePOST, hp, hkey, ht, hs]

theorem validatePOST_no_grant (env : Env) (store : Store) (tok : JwtToken)
    (now : Nat) (p : SSOTokenPayload)
    (hp : validateSSOToken env tok now = .ok (some p))
    (key : String) (hkey : env.serviceKey = some key)
    (tenant : Tenant) (ht : findTenant store p.tenant_id = some tenant)
    (hs : tenant.status = .active)
    (hg : findGrant store p.tenant_id p.user_id = none) :
    validatePOST env store (some tok) now =
      .errorResp 403 "User does not have access to this tenant" := by
  simp [validatePOST, hp, hkey, ht, hs, hg]

theorem validatePOST_success_eq (env : Env) (store : Store) (tok : JwtToken)
    (now : Nat) (p : SSOTokenPayload)
    (hp : validateSSOToken env tok now = .ok (some p))
    (key : String) (hkey : env.serviceKey = some key)
    (tenant : Tenant) (ht : findTenant store p.tenant_id = some tenant)
    (hs : tenant.status = .active)
    (grant : TenantUser) (hg : findGrant store p.tenant_id p.user_id = some grant) :
    validatePOST env store (some tok) now =
      .success p.tenant_id p.user_id p.email grant.role tenant.plan := by
  simp [validatePOST, hp, hkey, ht, hs, hg]

theorem validatePOST_success_inv (env : Env) (store : Store)
    (tokenOpt : Option JwtToken) (now : Nat)
    (tid uid email : String) (role : Role) (plan : TenantPlan)
    (h : validatePOST env store tokenOpt now = .success tid uid email role plan) :
    ∃ (tok : JwtToken) (p : SSOTokenPayload) (tenant : Tenant) (grant : TenantUser),
      tokenOpt = some tok ∧
      validateSSOToken env tok now = .ok (some p) ∧
      env.serviceKey.isSome ∧
      findTenant store p.tenant_id = some tenant ∧
      tenant.status = .active ∧
      findGrant store p.tenant_id p.user_id = some grant ∧
      tid = p.tenant_id ∧ uid = p.user_id ∧ email = p.email ∧
      role = grant.role ∧ plan = tenant.plan := by
  cases tokenOpt with
  | none => simp [validatePOST] at h
  | some tok =>
    cases hv : validateSSOToken env tok now with
    | error e => simp [validatePOST, hv] at h
    | ok o =>
      cases o with
      | none => simp [validatePOST, hv] at h
      | some p =>
        cases hk : env.serviceKey with
        | none => simp [validatePOST, hv, hk] at h
        | some key =>
          cases ht : findTenant store p.tenant_id with
          | none => simp [validatePOST, hv, hk, ht] at h
          | some tenant =>
            by_cases hs : tenant.status = TenantStatus.active
            · cases hg : findGrant store p.tenant_id p.user_id with
              | none => simp [validatePOST, hv, hk, ht, hs, hg] at h
              | some grant =>
                rw [validatePOST_success_eq env store tok now p hv key hk tenant ht
                  hs grant hg] at h
                obtain ⟨h1, h2, h3, h4, h5⟩ := ValidateResponse.success.injEq .. |>.mp h
                exact ⟨tok, p, tenant, grant, rfl, hv, by simp [hk], ht, hs, hg,
                  h1.symm, h2.symm, h3.symm, h4.symm, h5.symm⟩
            · rw [validatePOST_inactive env store tok now p hv key hk tenant ht hs] at h
              simp at h

/-! ### Shared concrete fixtures for witnesses and counterexamples -/

/-- A fully configured environment. -/
def envW : Env :=
  { ssoSecret := some "s", serviceKey := some "k", cloudDeploymentUrl := none }

/-- The claim set minted at time 100 for tenant t1, user u1. -/
def claimsW : JwtClaims :=
  { payload := { tenant_id := "t1", user_id := "u1", email := "a@b.com",
                 iat := some 100, exp := some 1000 },
    iss := some ssoIssuer, aud := some ssoAudience }

/-- A valid token: claimsW signed with the configured secret. -/
def tokW : JwtToken := .signed claimsW "s"

/-- The same claim set signed with a different secret. -/
def tokBadSig : JwtToken := .signed claimsW "wrong"

/-- A store holding an active tenant t1 and a grant for (t1, u1). -/
def storeW : Store :=
  { tenants := [{ id := "t1", status := .active, plan := .pro }],
    tenant_users := [{ tenant_id := "t1", user_id := "u1", role := .owner }] }

/-- The same store with tenant t1 suspended. -/
def storeSuspended : Store :=
  { tenants := [{ id := "t1", status := .suspended, plan := .pro }],
    tenant_users := [{ tenant_id := "t1", user_id := "u1", role := .owner }] }

/-- The same store with the (t1, u1) grant deleted. -/
def storeNoGrant : Store :=
  { tenants := [{ id := "t1", status := .active, plan := .pro }],
    tenant_users := [] }

/-- A store with no rows at all. -/
def storeEmpty : Store := { tenants := [], tenant_users := [] }

/-- C1: a token is honored only if, at verification time, a grant exists for
the decoded (tenant_id, user_id) and the tenant status is active. The store is
an arbitrary parameter of the redemption call, so both conditions are
re-evaluated against the state current at redemption: whatever held at mint
time, a redemption against a store where the tenant is suspended or cancelled
or where the grant row is gone cannot return the success payload. -/
theorem honored_only_if_grant_and_active (env : Env) (store : Store)
    (tokenOpt : Option JwtToken) (now : Nat)
    (tid uid email : String) (role : Role) (plan : TenantPlan)
    (h : validatePOST env store tokenOpt now = .success tid uid email role plan) :
    (∃ tenant, findTenant store tid = some tenant ∧
      tenant.status = .active ∧ tenant.plan = plan) ∧
    (∃ grant, findGrant store tid uid = some grant ∧ grant.role = role) := by
  obtain ⟨tok, p, tenant, grant, -, -, -, ht, hs, hg, h1, h2, -, h4, h5⟩ :=
    validatePOST_success_inv env store tokenOpt now tid uid email role plan h
  subst h1; subst h2
  exact ⟨⟨tenant, ht, hs, h5.symm⟩, ⟨grant, hg, h4.symm⟩⟩

/-- C1 witness: a concrete successful redemption, from which the active tenant
and the grant are recovered. -/
theorem honored_only_if_grant_and_active_witness :
    (∃ tenant, findTenant storeW "t1" = some tenant ∧
      tenant.status = .active ∧ tenant.plan = .pro) ∧
    (∃ grant, findGrant storeW "t1" "u1" = some grant ∧ grant.role = .owner) :=
  honored_only_if_grant_and_active envW storeW (some tokW) 100
    "t1" "u1" "a@b.com" .owner .pro (by decide)

/-- C2: redemption checks run in the fixed order codec verification, tenant
gate, grant re-check, aborting at the first failure, and only when all pass is
the enriched payload returned. The abort conjuncts quantify over the parts of
the store a later step would read, so a failure at one step fixes the response
whatever the later lookups would have found. -/
theorem redeem_check_order (env : Env) (secret key : String)
    (hsec : env.ssoSecret = some secret) (hkey : env.serviceKey = some key) :
    (∀ store tok now e, jwtVerify tok secret ssoIssuer ssoAudience now = .error e →
      validatePOST env store (some tok) now =
        .errorResp 401 "Invalid or expired token") ∧
    (∀ tenants grants tok c now,
      jwtVerify tok secret ssoIssuer ssoAudience now = .ok c →
      findTenant ⟨tenants, grants⟩ c.payload.tenant_id = none →
      validatePOST env ⟨tenants, grants⟩ (some tok) now =
        .errorResp 404 "Tenant not found") ∧
    (∀ tenants grants tok c tenant now,
      jwtVerify tok secret ssoIssuer ssoAudience now = .ok c →
      findTenant ⟨tenants, grants⟩ c.payload.tenant_id = some tenant →
      tenant.status ≠ .active →
      validatePOST env ⟨tenants, grants⟩ (some tok) now =
        .errorResp 403 ("Tenant is " ++ statusString tenant.status)) ∧
    (∀ store tok c tenant now,
      jwtVerify tok secret ssoIssuer ssoAudience now = .ok c →
      findTenant store c.payload.tenant_id = some tenant →
      tenant.status = .active →
      findGrant store c.payload.tenant_id c.payload.user_id = none →
      validatePOST env store (some tok) now =
        .errorResp 403 "User does not have access to this tenant") ∧
    (∀ store tok c tenant grant now,
      jwtVerify tok secret ssoIssuer ssoAudience now = .ok c →
      findTenant store c.payload.tenant_id = some tenant →
      tenant.status = .active →
      findGrant store c.payload.tenant_id c.payload.user_id = some grant →
      validatePOST env store (some tok) now =
        .success c.payload.tenant_id c.payload.user_id c.payload.email
          grant.role tenant.plan) := by
  refine ⟨?_, ?_, ?_, ?_, ?_⟩
  · intro store tok now e hv
    exact validatePOST_verify_fail env store tok now secret hsec e hv
  · intro tenants grants tok c now hv ht
    exact validatePOST_no_tenant env _ tok now c.payload
      (validatePOST_ok_some env tok now secret hsec c hv) key hkey ht
  · intro tenants grants tok c tenant now hv ht hs
    exact validatePOST_inactive env _ tok now c.payload
      (validatePOST_ok_some env tok now secret hsec c hv) key hkey tenant ht hs
  · intro store tok c tenant now hv ht hs hg
    exact validatePOST_no_grant env store tok now c.payload
      (validatePOST_ok_some env tok now secret hsec c hv) key hkey tenant ht hs hg
  · intro store tok c tenant grant now hv ht hs hg
    exact validatePOST_success_eq env store tok now c.payload
      (validatePOST_ok_some env tok now secret hsec c hv) key hkey tenant ht hs
      grant hg

/-- C2 witness: a concrete undecodable token aborts at the codec step with the
generic 401 response. -/
theorem redeem_check_order_witness :
    validatePOST envW storeW (some (JwtToken.malformed "zz")) 100 =
      .errorResp 401 "Invalid or expired token" :=
  (redeem_check_order envW "s" "k" rfl rfl).1 storeW (.malformed "zz") 100
    .invalid rfl

/-- C3: minting for (tid, uid, email) and redeeming the resulting token before
its expiry, while a grant for (tid, uid) exists and the tenant is active,
succeeds and returns the same tid, uid and email in the payload. -/
theorem mint_redeem_roundtrip (env : Env) (secret key : String)
    (hsec : env.ssoSecret = some secret) (hkey : env.serviceKey = some key)
    (store : Store) (tid uid email : String)
    (tenant : Tenant) (ht : findTenant store tid = some tenant)
    (hs : tenant.status = .active)
    (grant : TenantUser) (hg : findGrant store tid uid = some grant)
    (mintTime redeemTime : Nat) (_hle : mintTime ≤ redeemTime)
    (hfresh : redeemTime < mintTime + ssoExpirySeconds)
    (tok : JwtToken) (hmint : generateSSOToken env tid uid email mintTime = .ok tok) :
    validatePOST env store (some tok) redeemTime =
      .success tid uid email grant.role tenant.plan := by
  simp only [generateSSOToken, hsec, Except.ok.injEq] at hmint
  subst hmint
  have hv : jwtVerify
      (.signed
        { payload :=
            { tenant_id := tid, user_id := uid, email := email,
              iat := some mintTime, exp := some (mintTime + ssoExpirySeconds) }
          iss := some ssoIssuer
          aud := some ssoAudience } secret)
      secret ssoIssuer ssoAudience redeemTime =
      .ok { payload :=
              { tenant_id := tid, user_id := uid, email := email,
                iat := some mintTime, exp := some (mintTime + ssoExpirySeconds) }
            iss := some ssoIssuer
            aud := some ssoAudience } := by
    simp [jwtVerify, checkAudIss]
    omega
  exact validatePOST_success_eq env store _ redeemTime _
    (validatePOST_ok_some env _ redeemTime secret hsec _ hv) key hkey
    tenant ht hs grant hg

/-- C3 witness: a concrete mint at time 100 redeemed at time 100 against a
store holding the grant and the active tenant. -/
theorem mint_redeem_roundtrip_witness :
    validatePOST envW storeW (some tokW) 100 =
      .success "t1" "u1" "a@b.com" .owner .pro :=
  mint_redeem_roundtrip envW "s" "k" rfl rfl storeW "t1" "u1" "a@b.com"
    { id := "t1", status := .active, plan := .pro } (by decide) rfl
    { tenant_id := "t1", user_id := "u1", role := .owner } (by decide)
    100 100 (Nat.le_refl 100) (by decide) tokW rfl

/-- C4 counterexample: four concrete failing redemption attempts whose
user-facing responses are pairwise distinct: a wrong-signature token gets the
generic 401, a missing tenant gets 404 with its own message, a suspended
tenant gets 403 with a message that names the tenant status, and a deleted
grant gets 403 with yet another message. The failure causes are therefore
distinguishable to the external caller. -/
theorem failure_responses_distinct_counterexample :
    validatePOST envW storeW (some tokBadSig) 100 =
      .errorResp 401 "Invalid or expired token" ∧
    validatePOST envW storeEmpty (some tokW) 100 =
      .errorResp 404 "Tenant not found" ∧
    validatePOST envW storeSuspended (some tokW) 100 =
      .errorResp 403 "Tenant is suspended" ∧
    validatePOST envW storeNoGrant (some tokW) 100 =
      .errorResp 403 "User does not have access to this tenant" ∧
    (ValidateResponse.errorResp 401 "Invalid or expired token" ≠
      .errorResp 404 "Tenant not found") ∧
    (ValidateResponse.errorResp 404 "Tenant not found" ≠
      .errorResp 403 "Tenant is suspended") ∧
    (ValidateResponse.errorResp 403 "Tenant is suspended" ≠
      .errorResp 403 "User does not have access to this tenant") ∧
    (ValidateResponse.errorResp 401 "Invalid or expired token" ≠
      .errorResp 403 "Tenant is suspended") ∧
    (ValidateResponse.errorResp 401 "Invalid or expired token" ≠
      .errorResp 403 "User does not have access to this tenant") ∧
    (ValidateResponse.errorResp 404 "Tenant not found" ≠
      .errorResp 403 "User does not have access to this tenant") := by
  decide

/-- C4 amended: only the codec-stage failure causes are indistinguishable —
any two redemptions whose token fails verification, whether expired or
malformed or wrongly signed, produce the identical generic 401 response; the
tenant-not-found, tenant-not-active and grant-absent causes each produce their
own distinct response, and the tenant-not-active message names the tenant
status. -/
theorem codec_failures_indistinguishable (env : Env) (secret : String)
    (hsec : env.ssoSecret = some secret)
    (store store' : Store) (tok tok' : JwtToken) (now now' : Nat) (e e' : JwtError)
    (h : jwtVerify tok secret ssoIssuer ssoAudience now = .error e)
    (h' : jwtVerify tok' secret ssoIssuer ssoAudience now' = .error e') :
    (validatePOST env store (some tok) now =
      validatePOST env store' (some tok') now' ∧
     validatePOST env store (some tok) now =
      .errorResp 401 "Invalid or expired token") ∧
    (validatePOST envW storeEmpty (some tokW) 100 =
      .errorResp 404 "Tenant not found" ∧
     validatePOST envW storeSuspended (some tokW) 100 =
      .errorResp 403 ("Tenant is " ++ statusString .suspended) ∧
     validatePOST envW storeNoGrant (some tokW) 100 =
      .errorResp 403 "User does not have access to this tenant") := by
  have a := validatePOST_verify_fail env store tok now secret hsec e h
  have b := validatePOST_verify_fail env store' tok' now' secret hsec e' h'
  exact ⟨⟨a.trans b.symm, a⟩, by decide, by decide, by decide⟩

/-- C4 amended witness: a concrete expired token and a concrete
wrong-signature token produce the identical generic 401 response. -/
theorem codec_failures_indistinguishable_witness :
    validatePOST envW storeW (some tokW) 2000 =
      validatePOST envW storeSuspended (some tokBadSig) 100 ∧
    validatePOST envW storeW (some tokW) 2000 =
      .errorResp 401 "Invalid or expired token" :=
  ((codec_failures_indistinguishable envW "s" rfl storeW storeSuspended
    tokW tokBadSig 2000 100 .expired .invalid rfl rfl).1)

/-- C5 counterexample: at a concrete expired token and a concrete
wrong-secret token, validateSSOToken returns the same untagged null result in
both cases, although the internal jwt errors differ; the returned value
carries no ExpiredToken or InvalidSignatureOrFormat tag. -/
theorem verify_untagged_counterexample :
    validateSSOToken envW tokW 2000 = .ok none ∧
    validateSSOToken envW tokBadSig 100 = .ok none ∧
    jwtVerify tokW "s" ssoIssuer ssoAudience 2000 = .error .expired ∧
    jwtVerify tokBadSig "s" ssoIssuer ssoAudience 100 = .error .invalid :=
  ⟨rfl, rfl, rfl, rfl⟩

/-- C5 amended: with the shared secret configured, validateSSOToken never
throws for any input token, undecodable or otherwise: it returns the decoded
payload on success and the untagged null on every failure, expired or not —
the expired versus invalid distinction is not part of the returned value. -/
theorem verify_total_null_on_failure (env : Env) (secret : String)
    (hsec : env.ssoSecret = some secret) (tok : JwtToken) (now : Nat) :
    (∃ r, validateSSOToken env tok now = .ok r) ∧
    (∀ e, jwtVerify tok secret ssoIssuer ssoAudience now = .error e →
      validateSSOToken env tok now = .ok none) ∧
    (∀ c, jwtVerify tok secret ssoIssuer ssoAudience now = .ok c →
      validateSSOToken env tok now = .ok (some c.payload)) := by
  refine ⟨?_, ?_, ?_⟩
  · cases hv : jwtVerify tok secret ssoIssuer ssoAudience now with
    | error e => exact ⟨none, by simp [validateSSOToken, hsec, hv]⟩
    | ok c => exact ⟨some c.payload, by simp [validateSSOToken, hsec, hv]⟩
  · intro e hv
    simp [validateSSOToken, hsec, hv]
  · intro c hv
    simp [validateSSOToken, hsec, hv]

/-- C5 amended witness: instantiated at a concrete undecodable token. -/
theorem verify_total_null_on_failure_witness :
    (∃ r, validateSSOToken envW (JwtToken.malformed "zz") 100 = .ok r) ∧
    (∀ e, jwtVerify (JwtToken.malformed "zz") "s" ssoIssuer ssoAudience 100 =
        .error e →
      validateSSOToken envW (JwtToken.malformed "zz") 100 = .ok none) ∧
    (∀ c, jwtVerify (JwtToken.malformed "zz") "s" ssoIssuer ssoAudience 100 =
        .ok c →
      validateSSOToken envW (JwtToken.malformed "zz") 100 = .ok (some c.payload)) :=
  verify_total_null_on_failure envW "s" rfl (.malformed "zz") 100

/-- C6 counterexample: a concrete token whose exp lies in the past but whose
signature is wrong yields the invalid-signature tag, not the expired tag —
the signature check runs before the expiry check — and its redemption response
is the generic 401, identical to that of the same wrong-signature token before
expiry, so no distinct ExpiredToken error is reported either internally or
externally. -/
theorem expired_error_counterexample :
    jwtVerify tokBadSig "s" ssoIssuer ssoAudience 2000 = .error .invalid ∧
    (Except.error (ε := JwtError) (α := JwtClaims) .invalid ≠
      Except.error .expired) ∧
    validatePOST envW storeW (some tokBadSig) 2000 =
      .errorResp 401 "Invalid or expired token" ∧
    validatePOST envW storeW (some tokBadSig) 100 =
      .errorResp 401 "Invalid or expired token" :=
  ⟨rfl, by intro h; exact absurd (Except.error.inj h) (by decide), rfl, rfl⟩

/-- C6 amended: every signed token whose exp lies in the past at redemption
time fails redemption with the generic 401 response, whatever its signature;
internally the verification error is the expired tag only when the signature
matches the shared secret — with a wrong signature the signature check comes
first and the error is the invalid tag. -/
theorem expired_token_always_rejected (env : Env) (secret : String)
    (hsec : env.ssoSecret = some secret) (store : Store)
    (c : JwtClaims) (s : String) (now e : Nat)
    (hexp : c.payload.exp = some e) (hpast : e ≤ now) :
    validatePOST env store (some (.signed c s)) now =
      .errorResp 401 "Invalid or expired token" ∧
    (s = secret →
      jwtVerify (.signed c s) secret ssoIssuer ssoAudience now = .error .expired) ∧
    (s ≠ secret →
      jwtVerify (.signed c s) secret ssoIssuer ssoAudience now = .error .invalid) := by
  have hvalid : s = secret →
      jwtVerify (.signed c s) secret ssoIssuer ssoAudience now = .error .expired := by
    intro hss
    subst hss
    simp [jwtVerify, hexp, hpast]
  have hwrong : s ≠ secret →
      jwtVerify (.signed c s) secret ssoIssuer ssoAudience now = .error .invalid := by
    intro hss
    simp [jwtVerify, hss]
  refine ⟨?_, hvalid, hwrong⟩
  by_cases hss : s = secret
  · exact validatePOST_verify_fail env store _ now secret hsec .expired (hvalid hss)
  · exact validatePOST_verify_fail env store _ now secret hsec .invalid (hwrong hss)

/-- C6 amended witness: the concrete valid-signature token expired at time
2000. -/
theorem expired_token_always_rejected_witness :
    validatePOST envW storeW (some (JwtToken.signed claimsW "s")) 2000 =
      .errorResp 401 "Invalid or expired token" ∧
    ("s" = "s" →
      jwtVerify (.signed claimsW "s") "s" ssoIssuer ssoAudience 2000 =
        .error .expired) ∧
    ("s" ≠ "s" →
      jwtVerify (.signed claimsW "s") "s" ssoIssuer ssoAudience 2000 =
        .error .invalid) :=
  expired_token_always_rejected envW "s" rfl storeW claimsW "s" 2000 1000
    rfl (by decide)

/-- C7: with the shared secret configured, mint produces a signed token whose
claim set has iat equal to the mint time, exp equal to the mint time plus 15
minutes, and the fixed issuer and audience; with the secret absent it fails
with the configuration error. The last two conjuncts show the issuer and
audience constants are checked on verify: an unexpired token signed with the
right secret but carrying a different audience or issuer is rejected. -/
theorem mint_claims_and_config (env : Env) (tid uid email : String) (now : Nat) :
    (∀ secret, env.ssoSecret = some secret →
      generateSSOToken env tid uid email now =
        .ok (.signed
          { payload := { tenant_id := tid, user_id := uid, email := email,
                         iat := some now, exp := some (now + 15 * 60) },
            iss := some ssoIssuer, aud := some ssoAudience } secret)) ∧
    (env.ssoSecret = none →
      generateSSOToken env tid uid email now =
        .error ("SSO_SECRET not configured")) ∧
    (∀ c secret t, (∀ e, c.payload.exp = some e → t < e) →
      c.aud ≠ some ssoAudience →
      jwtVerify (.signed c secret) secret ssoIssuer ssoAudience t =
        .error .invalid) ∧
    (∀ c secret t, (∀ e, c.payload.exp = some e → t < e) →
      c.iss ≠ some ssoIssuer →
      jwtVerify (.signed c secret) secret ssoIssuer ssoAudience t =
        .error .invalid) := by
  refine ⟨?_, ?_, ?_, ?_⟩
  · intro secret hsec
    simp [generateSSOToken, hsec, ssoExpirySeconds]
  · intro hsec
    simp [generateSSOToken, hsec]
  · intro c secret t hfresh haud
    cases hexp : c.payload.exp with
    | none => simp [jwtVerify, hexp, checkAudIss, haud]
    | some e =>
      have : ¬ e ≤ t := by have := hfresh e hexp; omega
      simp [jwtVerify, hexp, this, checkAudIss, haud]
  · intro c secret t hfresh hiss
    cases hexp : c.payload.exp with
    | none =>
      by_cases haud : c.aud = some ssoAudience <;>
        simp [jwtVerify, hexp, checkAudIss, haud, hiss]
    | some e =>
      have : ¬ e ≤ t := by have := hfresh e hexp; omega
      by_cases haud : c.aud = some ssoAudience <;>
        simp [jwtVerify, hexp, this, checkAudIss, haud, hiss]

/-- C7 witness: the concrete mint at time 100 with the configured secret
produces exactly the fixture token, whose exp is 100 + 900. -/
theorem mint_claims_and_config_witness :
    generateSSOToken envW "t1" "u1" "a@b.com" 100 = .ok tokW :=
  (mint_claims_and_config envW "t1" "u1" "a@b.com" 100).1 "s" rfl

/-- C8: on an undecodable string, getTokenExpiration returns null and
isTokenExpired returns true; in general isTokenExpired is the fail-closed
derivative of getTokenExpiration — true whenever getTokenExpiration is null,
and otherwise exactly the comparison of the clock against the returned
millisecond timestamp. -/
theorem peek_expiry_fail_closed :
    (∀ raw nowMs, getTokenExpiration (JwtToken.malformed raw) = none ∧
      isTokenExpired (JwtToken.malformed raw) nowMs = true) ∧
    (∀ tok nowMs, getTokenExpiration tok = none →
      isTokenExpired tok nowMs = true) ∧
    (∀ tok nowMs ms, getTokenExpiration tok = some ms →
      isTokenExpired tok nowMs = decide (ms ≤ nowMs)) := by
  refine ⟨fun raw nowMs => ⟨rfl, rfl⟩, ?_, ?_⟩
  · intro tok nowMs h
    cases hd : jwtDecode tok with
    | none => simp [isTokenExpired, hd]
    | some c =>
      simp only [getTokenExpiration, hd] at h
      cases hexp : c.payload.exp with
      | none => simp [isTokenExpired, hd, hexp]
      | some e =>
        cases e with
        | zero => simp [isTokenExpired, hd, hexp]
        | succ e => rw [hexp] at h; cases h
  · intro tok nowMs ms h
    cases hd : jwtDecode tok with
    | none => simp [getTokenExpiration, hd] at h
    | some c =>
      simp only [getTokenExpiration, hd] at h
      cases hexp : c.payload.exp with
      | none => rw [hexp] at h; cases h
      | some e =>
        cases e with
        | zero => rw [hexp] at h; cases h
        | succ e =>
          rw [hexp] at h
          cases h
          simp [isTokenExpired, hd, hexp]

/-- C8 witness: instantiated at a concrete undecodable token, whose null
expiration forces isTokenExpired to report true. -/
theorem peek_expiry_fail_closed_witness :
    isTokenExpired (JwtToken.malformed "zz") 5 = true :=
  peek_expiry_fail_closed.2.1 (.malformed "zz") 5 rfl

/-! ### Helper lemmas for the generate route -/

theorem generatePOST_success (env : Env) (store : Store)
    (secret key : String) (hsec : env.ssoSecret = some secret)
    (hkey : env.serviceKey = some key)
    (uid tid : String) (hu : uid ≠ "") (ht : tid ≠ "")
    (emailClaim : Option String) (now : Nat)
    (grant : TenantUser) (hg : findGrant store tid uid = some grant) :
    generatePOST env store (some (.parsed (some uid) emailClaim)) (some tid) now =
      .success
        (.signed
          { payload := { tenant_id := tid, user_id := uid,
                         email := emailOrFallback emailClaim,
                         iat := some now, exp := some (now + ssoExpirySeconds) },
            iss := some ssoIssuer, aud := some ssoAudience } secret)
        { base := env.cloudDeploymentUrl.getD defaultDeploymentUrl,
          token := .signed
            { payload := { tenant_id := tid, user_id := uid,
                           email := emailOrFallback emailClaim,
                           iat := some now, exp := some (now + ssoExpirySeconds) },
              iss := some ssoIssuer, aud := some ssoAudience } secret } := by
  simp [generatePOST, hu, ht, hkey, hg, generateSSOToken, hsec]

theorem jwtVerify_minted (secret tid uid em : String) (iat : Option Nat)
    (now t : Nat) (hfresh : t < now + ssoExpirySeconds) :
    jwtVerify
      (.signed
        { payload := { tenant_id := tid, user_id := uid, email := em,
                       iat := iat, exp := some (now + ssoExpirySeconds) },
          iss := some ssoIssuer, aud := some ssoAudience } secret)
      secret ssoIssuer ssoAudience t =
      .ok { payload := { tenant_id := tid, user_id := uid, email := em,
                         iat := iat, exp := some (now + ssoExpirySeconds) },
            iss := some ssoIssuer, aud := some ssoAudience } := by
  simp [jwtVerify, checkAudIss]
  omega

/-- C9: minting never consults the tenant status. First conjunct: the outcome
of the generate route is unchanged under any replacement of the tenants table,
so tenant status cannot influence it. Second conjunct: with a grant present and the
secret configured, the route returns a token even though the store may hold
the tenant as suspended or cancelled, and that token, redeemed while the
tenant is not active, is rejected by the tenant gate. -/
theorem mint_ignores_tenant_status (env : Env) (secret key : String)
    (hsec : env.ssoSecret = some secret) (hkey : env.serviceKey = some key)
    (uid tid : String) (hu : uid ≠ "") (ht : tid ≠ "")
    (emailClaim : Option String) (now : Nat)
    (tenants : List Tenant) (grants : List TenantUser)
    (grant : TenantUser) (hg : findGrant ⟨tenants, grants⟩ tid uid = some grant) :
    (∀ tenants' : List Tenant,
      generatePOST env ⟨tenants, grants⟩
        (some (.parsed (some uid) emailClaim)) (some tid) now =
      generatePOST env ⟨tenants', grants⟩
        (some (.parsed (some uid) emailClaim)) (some tid) now) ∧
    (∃ tok : JwtToken,
      generatePOST env ⟨tenants, grants⟩
        (some (.parsed (some uid) emailClaim)) (some tid) now =
        .success tok { base := env.cloudDeploymentUrl.getD defaultDeploymentUrl,
                       token := tok } ∧
      ∀ (store' : Store) (redeemTime : Nat) (tenant' : Tenant),
        redeemTime < now + ssoExpirySeconds →
        findTenant store' tid = some tenant' →
        tenant'.status ≠ .active →
        validatePOST env store' (some tok) redeemTime =
          .errorResp 403 ("Tenant is " ++ statusString tenant'.status)) := by
  constructor
  · intro tenants'
    rfl
  · refine ⟨_, generatePOST_success env ⟨tenants, grants⟩ secret key hsec hkey
      uid tid hu ht emailClaim now grant hg, ?_⟩
    intro store' redeemTime tenant' hfresh ht' hs'
    exact validatePOST_inactive env store' _ redeemTime _
      (validatePOST_ok_some env _ redeemTime secret hsec _
        (jwtVerify_minted secret tid uid (emailOrFallback emailClaim)
          (some now) now redeemTime hfresh))
      key hkey tenant' ht' hs'

/-- C9 witness: instantiated against a store whose only tenant is suspended;
the mint succeeds and the minted token is then rejected by the tenant gate. -/
theorem mint_ignores_tenant_status_witness :
    (∀ tenants' : List Tenant,
      generatePOST envW ⟨storeSuspended.tenants, storeSuspended.tenant_users⟩
        (some (.parsed (some "u1") (some "a@b.com"))) (some "t1") 100 =
      generatePOST envW ⟨tenants', storeSuspended.tenant_users⟩
        (some (.parsed (some "u1") (some "a@b.com"))) (some "t1") 100) ∧
    (∃ tok : JwtToken,
      generatePOST envW ⟨storeSuspended.tenants, storeSuspended.tenant_users⟩
        (some (.parsed (some "u1") (some "a@b.com"))) (some "t1") 100 =
        .success tok { base := envW.cloudDeploymentUrl.getD defaultDeploymentUrl,
                       token := tok } ∧
      ∀ (store' : Store) (redeemTime : Nat) (tenant' : Tenant),
        redeemTime < 100 + ssoExpirySeconds →
        findTenant store' "t1" = some tenant' →
        tenant'.status ≠ .active →
        validatePOST envW store' (some tok) redeemTime =
          .errorResp 403 ("Tenant is " ++ statusString tenant'.status)) :=
  mint_ignores_tenant_status envW "s" "k" rfl rfl "u1" "t1"
    (by decide) (by decide) (some "a@b.com") 100
    storeSuspended.tenants storeSuspended.tenant_users
    { tenant_id := "t1", user_id := "u1", role := .owner } (by decide)

/-- C10: when the primary-auth payload carries no email claim, the generate
route substitutes the fixed placeholder as the email of the minted claim set,
and a later successful redemption of that token returns the placeholder as the
email of the payload. -/
theorem missing_email_uses_placeholder (env : Env) (secret key : String)
    (hsec : env.ssoSecret = some secret) (hkey : env.serviceKey = some key)
    (uid tid : String) (hu : uid ≠ "") (ht : tid ≠ "")
    (store : Store) (grant : TenantUser) (hg : findGrant store tid uid = some grant)
    (now : Nat) :
    ∃ claims : JwtClaims,
      claims.payload.email = fallbackEmail ∧
      generatePOST env store (some (.parsed (some uid) none)) (some tid) now =
        .success (.signed claims secret)
          { base := env.cloudDeploymentUrl.getD defaultDeploymentUrl,
            token := .signed claims secret } ∧
      (∀ (store' : Store) (redeemTime : Nat) (tenant' : Tenant) (grant' : TenantUser),
        redeemTime < now + ssoExpirySeconds →
        findTenant store' tid = some tenant' →
        tenant'.status = .active →
        findGrant store' tid uid = some grant' →
        validatePOST env store' (some (.signed claims secret)) redeemTime =
          .success tid uid fallbackEmail grant'.role tenant'.plan) := by
  refine ⟨{ payload := { tenant_id := tid, user_id := uid, email := fallbackEmail,
                         iat := some now, exp := some (now + ssoExpirySeconds) },
            iss := some ssoIssuer, aud := some ssoAudience }, rfl, ?_, ?_⟩
  · exact generatePOST_success env store secret key hsec hkey uid tid hu ht
      none now grant hg
  · intro store' redeemTime tenant' grant' hfresh ht' hs' hg'
    exact validatePOST_success_eq env store' _ redeemTime _
      (validatePOST_ok_some env _ redeemTime secret hsec _
        (jwtVerify_minted secret tid uid fallbackEmail (some now) now
          redeemTime hfresh))
      key hkey tenant' ht' hs' grant' hg'

/-- C10 witness: instantiated concretely, with redemption against the store
holding the active tenant and the grant. -/
theorem missing_email_uses_placeholder_witness :
    ∃ claims : JwtClaims,
      claims.payload.email = fallbackEmail ∧
      generatePOST envW storeW (some (.parsed (some "u1") none)) (some "t1") 100 =
        .success (.signed claims "s")
          { base := envW.cloudDeploymentUrl.getD defaultDeploymentUrl,
            token := .signed claims "s" } ∧
      (∀ (store' : Store) (redeemTime : Nat) (tenant' : Tenant) (grant' : TenantUser),
        redeemTime < 100 + ssoExpirySeconds →
        findTenant store' "t1" = some tenant' →
        tenant'.status = .active →
        findGrant store' "t1" "u1" = some grant' →
        validatePOST envW store' (some (.signed claims "s")) redeemTime =
          .success "t1" "u1" fallbackEmail grant'.role tenant'.plan) :=
  missing_email_uses_placeholder envW "s" "k" rfl rfl "u1" "t1"
    (by decide) (by decide) storeW
    { tenant_id := "t1", user_id := "u1", role := .owner } (by decide) 100

end SSO
